import Mathlib

/-!
Shallow embedding of the SummarizerPro client core: the zustand
application store (`useAppStore`), the summarize / Q&A handlers of the
React components, the axios API-client configuration, and a chunker
modelled from the specification (the backend chunker sources are not
part of this tree).  All definitions are translated from the JavaScript
sources; theorems settle the specification claims about them.
-/

namespace SummarizerPro

/-- An uploaded file, as seen by the store (`inputContent.files`):
only name and byte size are consulted by the embedded code. -/
structure FileData where
  name : String
  size : Nat
deriving DecidableEq, Repr

/-- `inputContent` field of the store. -/
structure InputContent where
  text : String
  files : List FileData
  url : String
  youtubeUrl : String
deriving DecidableEq, Repr

/-- `summarySettings` field of the store. -/
structure SummarySettings where
  maxLength : Nat
  minLength : Nat
  summaryType : String
  summaryStyle : String
  customPrompt : String
  language : String
deriving DecidableEq, Repr

/-- Metadata of a summary result; `getQAContext` only consults the
optional `original_content` field. -/
structure SummaryMetadata where
  original_content : Option String
deriving DecidableEq, Repr

/-- A summary result returned by the backend: the summary text plus
optional metadata (`summaryResults.metadata` may be absent). -/
structure SummaryResult where
  summary : String
  metadata : Option SummaryMetadata
deriving DecidableEq, Repr

/-- One entry of `qaHistory`, as built by `addQAInteraction`. -/
structure QAInteraction where
  id : Nat
  question : String
  answer : String
  confidence : ℚ
  supportingText : String
  timestamp : String
deriving DecidableEq, Repr

/-- The zustand store state of `useAppStore`. -/
structure AppState where
  isLoading : Bool
  currentStep : String
  activeTab : String
  inputContent : InputContent
  summaryResults : Option SummaryResult
  summaryHistory : List SummaryResult
  qaHistory : List QAInteraction
  currentQuestion : String
  summarySettings : SummarySettings
deriving DecidableEq, Repr

/-- The store's initial state, from the object literal passed to
`create` in `useAppStore`. -/
def initialState : AppState :=
  { isLoading := false
    currentStep := "input"
    activeTab := "text"
    inputContent := { text := "", files := [], url := "", youtubeUrl := "" }
    summaryResults := none
    summaryHistory := []
    qaHistory := []
    currentQuestion := ""
    summarySettings :=
      { maxLength := 1200
        minLength := 300
        summaryType := "comprehensive"
        summaryStyle := "comprehensive"
        customPrompt := ""
        language := "en" } }

/-- Store action `setLoading`. -/
def setLoading (b : Bool) (st : AppState) : AppState :=
  { st with isLoading := b }

/-- Store action `setCurrentStep`. -/
def setCurrentStep (s : String) (st : AppState) : AppState :=
  { st with currentStep := s }

/-- Store action `setSummaryResults`: stores the result and prepends it
to `summaryHistory`, keeping `slice(0, 9)` of the previous history
("Keep last 10"). -/
def setSummaryResults (results : SummaryResult) (st : AppState) : AppState :=
  { st with
    summaryResults := some results
    summaryHistory := results :: st.summaryHistory.take 9 }

/-- Store action `addQAInteraction`.  The JavaScript generates
`id = Date.now()` and `timestamp = new Date().toISOString()`; the clock
readings are passed as the `newId` and `timestamp` arguments. -/
def addQAInteraction (question answer : String) (confidence : ℚ)
    (supportingText : String) (newId : Nat) (timestamp : String)
    (st : AppState) : AppState :=
  { st with
    qaHistory :=
      { id := newId
        question := question
        answer := answer
        confidence := confidence
        supportingText := supportingText
        timestamp := timestamp } :: st.qaHistory }

/-- Store action `setCurrentQuestion`. -/
def setCurrentQuestion (q : String) (st : AppState) : AppState :=
  { st with currentQuestion := q }

/-- A partial settings object, the argument of `updateSummarySettings`:
`some v` models a key present in the object literal with value `v`,
`none` a key that is absent. -/
structure SettingsPatch where
  maxLength : Option Nat
  minLength : Option Nat
  summaryType : Option String
  summaryStyle : Option String
  customPrompt : Option String
  language : Option String
deriving DecidableEq, Repr

/-- Store action `updateSummarySettings`: the JavaScript spread
`{ ...state.summarySettings, ...settings }` — keys present in the
argument override the previous value, absent keys are kept. -/
def updateSummarySettings (p : SettingsPatch) (st : AppState) : AppState :=
  { st with
    summarySettings :=
      { maxLength := p.maxLength.getD st.summarySettings.maxLength
        minLength := p.minLength.getD st.summarySettings.minLength
        summaryType := p.summaryType.getD st.summarySettings.summaryType
        summaryStyle := p.summaryStyle.getD st.summarySettings.summaryStyle
        customPrompt := p.customPrompt.getD st.summarySettings.customPrompt
        language := p.language.getD st.summarySettings.language } }

/-- JavaScript `String.prototype.trim()`: strip leading and trailing
whitespace.  (Defined over the character list so that it evaluates by
kernel reduction.) -/
def jsTrim (s : String) : String :=
  ⟨((s.data.dropWhile Char.isWhitespace).reverse.dropWhile
      Char.isWhitespace).reverse⟩

/-- Store getter `hasValidInput`.  URL validity (`new URL(...)`, a host
API) and the YouTube-URL regex are host-environment predicates passed
in as the oracles `isValidUrl` and `isYouTubeUrl`; the getter applies
them exactly where the source does. -/
def hasValidInput (isValidUrl isYouTubeUrl : String → Bool)
    (st : AppState) : Bool :=
  match st.activeTab with
  | "text" => (jsTrim st.inputContent.text).length > 10
  | "files" => st.inputContent.files.length > 0
  | "url" =>
      ((jsTrim st.inputContent.url).length > 0 : Bool)
        && isValidUrl st.inputContent.url
  | "youtube" =>
      ((jsTrim st.inputContent.youtubeUrl).length > 0 : Bool)
        && isYouTubeUrl st.inputContent.youtubeUrl
  | _ => false

/-- Store getter `getQAContext`: empty string when no summary result is
present; otherwise the summary, prefixed by the original content when a
non-empty `metadata.original_content` exists (JavaScript truthiness
makes an empty `original_content` fall back to the summary alone). -/
def getQAContext (st : AppState) : String :=
  match st.summaryResults with
  | none => ""
  | some r =>
    match r.metadata with
    | some m =>
      match m.original_content with
      | some oc =>
          if oc.isEmpty then r.summary
          else oc ++ "\n\nSummary: " ++ r.summary
      | none => r.summary
    | none => r.summary

/-- The body of a conversational Q&A request, as assembled by
`handleAskQuestion` before calling `qaAPI.conversationalQA`; each
conversation-history entry is reduced to its question and answer. -/
structure QARequest where
  question : String
  context : String
  conversation_history : List (String × String)
  language : String
deriving DecidableEq, Repr

/-- A Q&A response from the backend, as consumed by
`handleAskQuestion`. -/
structure QAResponse where
  answer : String
  confidence : ℚ
  supporting_text : String
deriving DecidableEq, Repr

/-- Outcome of one run of `handleAskQuestion`: the two early rejections
(toast errors issued before any API call), a successful answer, or an
API call that threw.  The request reaches the network only in the
`answered` and `failedCall` cases. -/
inductive QAOutcome where
  | errEmptyQuestion : QAOutcome
  | errNoContext : QAOutcome
  | answered : QARequest → QAResponse → QAOutcome
  | failedCall : QARequest → QAOutcome
deriving DecidableEq, Repr

/-- The request an outcome put on the wire, if any. -/
def QAOutcome.issuedRequest : QAOutcome → Option QARequest
  | .errEmptyQuestion => none
  | .errNoContext => none
  | .answered req _ => some req
  | .failedCall req => some req

/-- `handleAskQuestion` from `QASection`: rejects a blank question,
rejects an empty context (both before any API call), otherwise issues a
conversational Q&A request whose history is `qaHistory.slice(0, 3)`
mapped to question/answer pairs; on success the interaction is added to
the history and the current question cleared.  The backend is the
`respond` oracle (`none` models a thrown request); `newId` and
`timestamp` are the clock readings used by `addQAInteraction`. -/
def handleAskQuestion (respond : QARequest → Option QAResponse)
    (newId : Nat) (timestamp : String)
    (st : AppState) (question : String) : AppState × QAOutcome :=
  if (jsTrim question).isEmpty then (st, .errEmptyQuestion)
  else
    let context := getQAContext st
    if context.isEmpty then (st, .errNoContext)
    else
      let req : QARequest :=
        { question := question
          context := context
          conversation_history :=
            (st.qaHistory.take 3).map (fun qa => (qa.question, qa.answer))
          language := "en" }
      match respond req with
      | some resp =>
          (setCurrentQuestion ""
            (addQAInteraction question resp.answer resp.confidence
              resp.supporting_text newId timestamp st),
           .answered req resp)
      | none => (st, .failedCall req)

/-- A summarization request, as assembled by `handleSummarize` for the
active tab; it carries the input payload and the summary settings sent
with the request. -/
inductive SummRequest where
  | textReq : String → SummarySettings → SummRequest
  | documentReq : List FileData → SummarySettings → SummRequest
  | urlReq : String → SummarySettings → SummRequest
  | youtubeReq : String → SummarySettings → SummRequest
deriving DecidableEq, Repr

/-- The request built by the `switch (activeTab)` of `handleSummarize`;
`none` models the `default` branch, which throws before any call. -/
def buildSummRequest (st : AppState) : Option SummRequest :=
  match st.activeTab with
  | "text" => some (.textReq st.inputContent.text st.summarySettings)
  | "files" => some (.documentReq st.inputContent.files st.summarySettings)
  | "url" => some (.urlReq st.inputContent.url st.summarySettings)
  | "youtube" => some (.youtubeReq st.inputContent.youtubeUrl st.summarySettings)
  | _ => none

/-- Outcome of one run of `handleSummarize`: rejected invalid input
(toast error, nothing else happens), the thrown `default` branch, a
failed API call, or a stored result.  A request reaches the network
only in the `success` and `failedCall` cases. -/
inductive SummOutcome where
  | rejectedInvalidInput : SummOutcome
  | invalidTab : SummOutcome
  | failedCall : SummRequest → SummOutcome
  | success : SummRequest → SummaryResult → SummOutcome
deriving DecidableEq, Repr

/-- Whether the outcome surfaced an error to the user (every branch of
`handleSummarize` other than the success path shows an error toast). -/
def SummOutcome.isError : SummOutcome → Bool
  | .rejectedInvalidInput => true
  | .invalidTab => true
  | .failedCall _ => true
  | .success _ _ => false

/-- `handleSummarize` from `InputSection`: guards on `hasValidInput`
(toast error, early return), sets loading/processing state, builds the
request for the active tab and awaits the API (`respond`, with `none`
modelling a thrown call); on success it runs `setSummaryResults`,
`setCurrentStep('results')` and `setLoading(false)`; on any caught
error it returns the step to `'input'` and clears loading. -/
def handleSummarize (isValidUrl isYouTubeUrl : String → Bool)
    (respond : SummRequest → Option SummaryResult)
    (st : AppState) : AppState × SummOutcome :=
  if hasValidInput isValidUrl isYouTubeUrl st = false then
    (st, .rejectedInvalidInput)
  else
    let st1 := setCurrentStep "processing" (setLoading true st)
    match buildSummRequest st with
    | none =>
        (setLoading false (setCurrentStep "input" st1), .invalidTab)
    | some req =>
      match respond req with
      | some result =>
          (setLoading false
            (setCurrentStep "results" (setSummaryResults result st1)),
           .success req result)
      | none =>
          (setLoading false (setCurrentStep "input" st1), .failedCall req)

/-- `getConfidenceLabel` from `QASection`. -/
def getConfidenceLabel (confidence : ℚ) : String :=
  if confidence ≥ 0.8 then "High"
  else if confidence ≥ 0.6 then "Medium"
  else "Low"

/-- `getConfidenceColor` from `QASection`. -/
def getConfidenceColor (confidence : ℚ) : String :=
  if confidence ≥ 0.8 then "text-green-600 bg-green-100"
  else if confidence ≥ 0.6 then "text-yellow-600 bg-yellow-100"
  else "text-red-600 bg-red-100"

/-- The API methods of `summarizeAPI`, `qaAPI` and `exportAPI` in the
axios client module (the summarization, Q&A and export surface the
components call). -/
inductive ApiMethod where
  | summarizeText : ApiMethod
  | summarizeDocument : ApiMethod
  | summarizeUrl : ApiMethod
  | summarizeYoutube : ApiMethod
  | summarizeMultilingual : ApiMethod
  | askQuestion : ApiMethod
  | conversationalQA : ApiMethod
  | batchQA : ApiMethod
  | getSuggestedQuestions : ApiMethod
  | exportTxt : ApiMethod
  | exportDocx : ApiMethod
  | exportPdf : ApiMethod
  | generateTTS : ApiMethod
  | getSupportedLanguages : ApiMethod
  | batchExport : ApiMethod
deriving DecidableEq, Repr

/-- Effective request timeout (ms) of each method: the `apiClient`
instance is created with `timeout: 600000`, and `summarizeDocument` is
the one call that overrides it per request (`timeout: 900000`); every
other method inherits the instance default. -/
def requestTimeoutMs : ApiMethod → Nat
  | .summarizeDocument => 900000
  | _ => 600000

/-- Shape of an axios error as consulted by the response interceptor:
`error.response` (with its status and optional `data.detail`),
`error.request`, and `error.code`. -/
structure AxiosError where
  responseStatus : Option Nat
  responseDetail : Option String
  hasRequest : Bool
  code : String
deriving DecidableEq, Repr

/-- The message the response interceptor toasts for an error.  Mirrors
the `switch (status)` on `error.response`, the `error.request` branch
(with its `ECONNABORTED` timeout case), and the final fallback;
`data.detail || 'Invalid request'` falls back on an absent or empty
detail (JavaScript truthiness). -/
def interceptorMessage (e : AxiosError) : String :=
  match e.responseStatus with
  | some status =>
    match status with
    | 400 =>
      match e.responseDetail with
      | some d => if d.isEmpty then "Invalid request" else d
      | none => "Invalid request"
    | 404 => "Service not found"
    | 422 => "Validation error"
    | 500 => "Server error. Please try again later."
    | _ => "An unexpected error occurred"
  | none =>
    if e.hasRequest then
      if e.code = "ECONNABORTED" then
        "Request timeout. The operation is taking longer than expected. Please try again."
      else
        "Network error. Please check your connection and ensure the backend server is running."
    else "Request failed"

/-- The response interceptor: it toasts `interceptorMessage` and always
returns `Promise.reject(error)`, so the error is propagated to the
calling code (the `Bool` records that the rejection reaches the
caller). -/
def responseInterceptor (e : AxiosError) : String × Bool :=
  (interceptorMessage e, true)

/-- The error axios delivers when a request's timeout elapses: no
response, a request object present, and `code = 'ECONNABORTED'`.  This
is the documented axios timeout behaviour at the library boundary; the
repository's own code begins at the interceptor that receives it. -/
def timeoutExpiryError : AxiosError :=
  { responseStatus := none
    responseDetail := none
    hasRequest := true
    code := "ECONNABORTED" }

/-!
## Chunker

Modelled from the spec: the backend chunking/map-reduce pipeline is not
among the sources of this tree (only its configuration, `CHUNK_SIZE` /
`CHUNK_OVERLAP`, appears in the backend README).  Following §4.2, the
chunker splits text into ordered chunks bounded by a size budget `b`
with overlap `o` carried from the previous chunk; boundary selection
(nearest sentence/paragraph break within tolerance, hard cut as
fallback) is the `pick` selector, clamped so a chunk always advances
past the overlap and never exceeds the budget.  Text is a list of
characters.
-/

/-- Chunk length actually used at a step: the boundary the selector
prefers, clamped into `(o, b]` — at least one fresh character past the
overlap, at most the budget. -/
def chunkLen (pick : List Char → Nat) (b o : Nat) (t : List Char) : Nat :=
  max (o + 1) (min b (pick t))

/-- Modelled from the spec: split `t` into overlapping chunks.  When
the remaining text fits the budget (or the configuration is degenerate,
`b ≤ o`) it forms the final chunk; otherwise a chunk of `chunkLen`
characters is emitted and chunking continues `o` characters before its
end, so each later chunk begins with the `o`-character overlap. -/
def chunkText (pick : List Char → Nat) (b o : Nat) (t : List Char) :
    List (List Char) :=
  if t.length ≤ b ∨ b ≤ o then [t]
  else
    t.take (chunkLen pick b o t) ::
      chunkText pick b o (t.drop (chunkLen pick b o t - o))
termination_by t.length
decreasing_by
  simp only [not_or, not_le] at *
  have h1 : o + 1 ≤ chunkLen pick b o t := le_max_left _ _
  simp only [List.length_drop]
  omega

/-- Remove the overlaps: every chunk after the first drops its leading
`o` characters, and the remainders are concatenated. -/
def dropOverlapsConcat (o : Nat) : List (List Char) → List Char
  | [] => []
  | c :: cs => c ++ (cs.map (List.drop o)).flatten

/-!
## Theorems
-/

/-- C3: for every confidence value `c` in `[0,1]`, the bucketing
function labels `c` Low exactly when `c < 0.6`, Medium exactly when
`0.6 ≤ c < 0.8`, High exactly when `c ≥ 0.8`, and the colour
classification agrees with the label at every `c`. -/
theorem confidence_bucketing (c : ℚ) (h0 : 0 ≤ c) (h1 : c ≤ 1) :
    (getConfidenceLabel c = "Low" ↔ c < 0.6) ∧
    (getConfidenceLabel c = "Medium" ↔ 0.6 ≤ c ∧ c < 0.8) ∧
    (getConfidenceLabel c = "High" ↔ 0.8 ≤ c) ∧
    (getConfidenceColor c = "text-red-600 bg-red-100" ↔
      getConfidenceLabel c = "Low") ∧
    (getConfidenceColor c = "text-yellow-600 bg-yellow-100" ↔
      getConfidenceLabel c = "Medium") ∧
    (getConfidenceColor c = "text-green-600 bg-green-100" ↔
      getConfidenceLabel c = "High") := by
  unfold getConfidenceLabel getConfidenceColor
  split_ifs with ha hb <;>
    refine ⟨?_, ?_, ?_, ?_, ?_, ?_⟩ <;> simp_all <;> try linarith

/-- Witness for `confidence_bucketing` at `c = 0.7`. -/
theorem confidence_bucketing_witness :
    (0 : ℚ) ≤ 0.7 ∧ (0.7 : ℚ) ≤ 1 ∧ getConfidenceLabel 0.7 = "Medium" :=
  ⟨by norm_num, by norm_num,
    ((confidence_bucketing 0.7 (by norm_num) (by norm_num)).2.1).2
      ⟨by norm_num, by norm_num⟩⟩

/-- C9: every call to `setSummaryResults` stores the new result,
prepends it to `summaryHistory`, and truncates the history so its
length never exceeds 10, for every prior history. -/
theorem summary_history_bounded (r : SummaryResult) (st : AppState) :
    (setSummaryResults r st).summaryResults = some r ∧
    (setSummaryResults r st).summaryHistory = r :: st.summaryHistory.take 9 ∧
    (setSummaryResults r st).summaryHistory.length ≤ 10 := by
  refine ⟨rfl, rfl, ?_⟩
  simp only [setSummaryResults, List.length_cons, List.length_take]
  omega

/-- C10: `updateSummarySettings` is frame-preserving — keys present in
the patch are overwritten, absent keys keep their previous value, and
every other field of the store (input content, summary results and
history, Q&A state, UI state) is unchanged. -/
theorem update_settings_frame (p : SettingsPatch) (st : AppState) :
    ((updateSummarySettings p st).inputContent = st.inputContent ∧
     (updateSummarySettings p st).summaryResults = st.summaryResults ∧
     (updateSummarySettings p st).summaryHistory = st.summaryHistory ∧
     (updateSummarySettings p st).qaHistory = st.qaHistory ∧
     (updateSummarySettings p st).currentQuestion = st.currentQuestion ∧
     (updateSummarySettings p st).isLoading = st.isLoading ∧
     (updateSummarySettings p st).currentStep = st.currentStep ∧
     (updateSummarySettings p st).activeTab = st.activeTab) ∧
    ((∀ v, p.maxLength = some v →
        (updateSummarySettings p st).summarySettings.maxLength = v) ∧
     (p.maxLength = none →
        (updateSummarySettings p st).summarySettings.maxLength
          = st.summarySettings.maxLength)) ∧
    ((∀ v, p.minLength = some v →
        (updateSummarySettings p st).summarySettings.minLength = v) ∧
     (p.minLength = none →
        (updateSummarySettings p st).summarySettings.minLength
          = st.summarySettings.minLength)) ∧
    ((∀ v, p.summaryType = some v →
        (updateSummarySettings p st).summarySettings.summaryType = v) ∧
     (p.summaryType = none →
        (updateSummarySettings p st).summarySettings.summaryType
          = st.summarySettings.summaryType)) ∧
    ((∀ v, p.summaryStyle = some v →
        (updateSummarySettings p st).summarySettings.summaryStyle = v) ∧
     (p.summaryStyle = none →
        (updateSummarySettings p st).summarySettings.summaryStyle
          = st.summarySettings.summaryStyle)) ∧
    ((∀ v, p.customPrompt = some v →
        (updateSummarySettings p st).summarySettings.customPrompt = v) ∧
     (p.customPrompt = none →
        (updateSummarySettings p st).summarySettings.customPrompt
          = st.summarySettings.customPrompt)) ∧
    ((∀ v, p.language = some v →
        (updateSummarySettings p st).summarySettings.language = v) ∧
     (p.language = none →
        (updateSummarySettings p st).summarySettings.language
          = st.summarySettings.language)) := by
  refine ⟨⟨rfl, rfl, rfl, rfl, rfl, rfl, rfl, rfl⟩, ?_, ?_, ?_, ?_, ?_, ?_⟩ <;>
    constructor <;> intros <;> simp_all [updateSummarySettings]

/-- Witness for `update_settings_frame`: a patch setting only
`maxLength` leaves `language` and the Q&A history untouched. -/
theorem update_settings_frame_witness :
    (updateSummarySettings
        ⟨some 500, none, none, none, none, none⟩ initialState
      ).summarySettings.maxLength = 500 ∧
    (updateSummarySettings
        ⟨some 500, none, none, none, none, none⟩ initialState
      ).summarySettings.language = initialState.summarySettings.language ∧
    (updateSummarySettings
        ⟨some 500, none, none, none, none, none⟩ initialState
      ).qaHistory = initialState.qaHistory :=
  ⟨(update_settings_frame ⟨some 500, none, none, none, none, none⟩
      initialState).2.1.1 500 rfl,
   (update_settings_frame ⟨some 500, none, none, none, none, none⟩
      initialState).2.2.2.2.2.2.2 rfl,
   (update_settings_frame ⟨some 500, none, none, none, none, none⟩
      initialState).1.2.2.2.1⟩

/-- Length of the Q&A history after `n` repeated additions. -/
theorem addQA_iterate_length (n : Nat) (st : AppState) :
    ((fun s => addQAInteraction "q" "a" 0 "s" 0 "t" s)^[n] st).qaHistory.length
      = st.qaHistory.length + n := by
  induction n generalizing st with
  | zero => simp
  | succ n ih =>
    rw [Function.iterate_succ_apply, ih]
    simp [addQAInteraction]
    omega

/-- C1 (counterexample): the stored Q&A history admits no fixed bound —
for every candidate bound, enough additions to the initial state exceed
it; `addQAInteraction` never drops older entries. -/
theorem qa_history_not_bounded :
    ¬ ∃ B : Nat, ∀ n : Nat,
      ((fun s => addQAInteraction "q" "a" 0 "s" 0 "t" s)^[n]
          initialState).qaHistory.length ≤ B := by
  rintro ⟨B, hB⟩
  have h := hB (B + 1)
  rw [addQA_iterate_length] at h
  simp [initialState] at h

/-- C1 (amended): every call to `addQAInteraction` places the new
`QAInteraction` at the front of the history and grows its length by
exactly one; the stored history is unbounded and no oldest entries are
ever dropped. -/
theorem addQA_prepends_unbounded (q a : String) (c : ℚ) (sp : String)
    (newId : Nat) (ts : String) (st : AppState) :
    (addQAInteraction q a c sp newId ts st).qaHistory =
      { id := newId, question := q, answer := a, confidence := c,
        supportingText := sp, timestamp := ts } :: st.qaHistory ∧
    (addQAInteraction q a c sp newId ts st).qaHistory.length
      = st.qaHistory.length + 1 :=
  ⟨rfl, rfl⟩

/-- A missing summary result yields the empty Q&A context. -/
theorem getQAContext_none (st : AppState) (h : st.summaryResults = none) :
    getQAContext st = "" := by
  simp [getQAContext, h]

/-- C2: whenever the Q&A context is empty or missing (in particular
when no summary result is present), `handleAskQuestion` is rejected
before any request is issued: the outcome is one of the two early
error toasts, no request reaches the API, and the state — including
the Q&A history — is unchanged. -/
theorem qa_empty_context_rejected (respond : QARequest → Option QAResponse)
    (newId : Nat) (ts : String) (st : AppState) (q : String)
    (h : st.summaryResults = none ∨ getQAContext st = "") :
    (handleAskQuestion respond newId ts st q).1 = st ∧
    ((handleAskQuestion respond newId ts st q).2 = .errEmptyQuestion ∨
     (handleAskQuestion respond newId ts st q).2 = .errNoContext) ∧
    ((handleAskQuestion respond newId ts st q).2).issuedRequest = none ∧
    (handleAskQuestion respond newId ts st q).1.qaHistory = st.qaHistory := by
  have hctx : getQAContext st = "" := by
    rcases h with h | h
    · exact getQAContext_none st h
    · exact h
  unfold handleAskQuestion
  rw [hctx]
  by_cases hq : (jsTrim q).isEmpty <;>
    simp [hq, QAOutcome.issuedRequest,
      show ("" : String).isEmpty = true from rfl]

/-- Witness for `qa_empty_context_rejected` on the initial state. -/
theorem qa_empty_context_rejected_witness :
    (handleAskQuestion (fun _ => none) 0 "t" initialState "why").1
      = initialState ∧
    ((handleAskQuestion (fun _ => none) 0 "t" initialState "why").2
        = .errEmptyQuestion ∨
     (handleAskQuestion (fun _ => none) 0 "t" initialState "why").2
        = .errNoContext) :=
  ⟨(qa_empty_context_rejected (fun _ => none) 0 "t" initialState "why"
      (Or.inl rfl)).1,
   (qa_empty_context_rejected (fun _ => none) 0 "t" initialState "why"
      (Or.inl rfl)).2.1⟩

/-- C6: every conversational Q&A request issued by `handleAskQuestion`
carries as its `conversation_history` exactly the 3 most recent stored
interactions (in stored, most-recent-first order), each reduced to its
question and answer; in particular the attached history never exceeds
3 entries. -/
theorem qa_request_history_bounded (respond : QARequest → Option QAResponse)
    (newId : Nat) (ts : String) (st : AppState) (q : String) (req : QARequest)
    (h : ((handleAskQuestion respond newId ts st q).2).issuedRequest
        = some req) :
    req.conversation_history =
      (st.qaHistory.take 3).map (fun qa => (qa.question, qa.answer)) ∧
    req.conversation_history.length ≤ 3 := by
  have hmain : req.conversation_history =
      (st.qaHistory.take 3).map (fun qa => (qa.question, qa.answer)) := by
    unfold handleAskQuestion at h
    by_cases hq : (jsTrim q).isEmpty
    · simp [hq, QAOutcome.issuedRequest] at h
    · by_cases hc : (getQAContext st).isEmpty
      · simp [hq, hc, QAOutcome.issuedRequest] at h
      · simp only [hq, hc, if_false, Bool.false_eq_true] at h
        split at h <;>
          simp [QAOutcome.issuedRequest] at h <;> rw [← h] <;>
            simp [List.map_take]
  refine ⟨hmain, ?_⟩
  rw [hmain]
  simp only [List.length_map, List.length_take]
  omega

/-- Witness for `qa_request_history_bounded`: a state with one summary
result and an empty history issues a request with an empty
conversation history. -/
theorem qa_request_history_bounded_witness :
    ({ question := "why"
       context := "s"
       conversation_history := []
       language := "en" } : QARequest).conversation_history = [] ∧
    ({ question := "why"
       context := "s"
       conversation_history := []
       language := "en" } : QARequest).conversation_history.length ≤ 3 := by
  have happ := qa_request_history_bounded (fun r => some ⟨"a", 1, "s"⟩) 0 "t"
    { initialState with summaryResults := some { summary := "s", metadata := none } }
    "why"
    { question := "why", context := "s", conversation_history := [],
      language := "en" }
    (by decide)
  simpa using happ

/-- C4: whenever the active input is empty or fails validation
(`hasValidInput` is false), `handleSummarize` issues no summarization
request and surfaces the rejection, leaving the state untouched; and
`hasValidInput` is false on the text tab exactly for trimmed text of at
most 10 characters, on the files tab exactly when no files are present,
and on the URL/YouTube tabs exactly for blank or malformed URLs. -/
theorem summarize_invalid_input_rejected (vU vY : String → Bool)
    (respond : SummRequest → Option SummaryResult) (st : AppState) :
    (hasValidInput vU vY st = false →
      handleSummarize vU vY respond st = (st, .rejectedInvalidInput)) ∧
    (st.activeTab = "text" →
      (hasValidInput vU vY st = false ↔
        (jsTrim st.inputContent.text).length ≤ 10)) ∧
    (st.activeTab = "files" →
      (hasValidInput vU vY st = false ↔ st.inputContent.files = [])) ∧
    (st.activeTab = "url" →
      (hasValidInput vU vY st = false ↔
        (jsTrim st.inputContent.url).length = 0 ∨
          vU st.inputContent.url = false)) ∧
    (st.activeTab = "youtube" →
      (hasValidInput vU vY st = false ↔
        (jsTrim st.inputContent.youtubeUrl).length = 0 ∨
          vY st.inputContent.youtubeUrl = false)) := by
  refine ⟨?_, ?_, ?_, ?_, ?_⟩
  · intro h
    simp [handleSummarize, h]
  · intro htab
    simp [hasValidInput, htab]
  · intro htab
    simp [hasValidInput, htab, List.length_eq_zero]
  · intro htab
    simp only [hasValidInput, htab, Bool.and_eq_false_iff,
      decide_eq_false_iff_not, not_lt, Nat.le_zero]
  · intro htab
    simp only [hasValidInput, htab, Bool.and_eq_false_iff,
      decide_eq_false_iff_not, not_lt, Nat.le_zero]

/-- Witness for `summarize_invalid_input_rejected`: the initial state
(text tab, empty text) is rejected without any request. -/
theorem summarize_invalid_input_rejected_witness :
    handleSummarize (fun _ => true) (fun _ => true) (fun _ => none)
        initialState
      = (initialState, .rejectedInvalidInput) :=
  (summarize_invalid_input_rejected (fun _ => true) (fun _ => true)
      (fun _ => none) initialState).1 (by decide)

/-- C5: `handleSummarize` is all-or-nothing — every run either stores
the complete returned `SummaryResult` and sets the step to `results`,
or surfaces an error and leaves `summaryResults` (and the summary
history) exactly as before with the step back at `input`. -/
theorem summarize_all_or_nothing (vU vY : String → Bool)
    (respond : SummRequest → Option SummaryResult) (st : AppState)
    (h : st.currentStep = "input") :
    (∃ req r, (handleSummarize vU vY respond st).2 = .success req r ∧
        (handleSummarize vU vY respond st).1.summaryResults = some r ∧
        (handleSummarize vU vY respond st).1.currentStep = "results") ∨
    (((handleSummarize vU vY respond st).2).isError = true ∧
      (handleSummarize vU vY respond st).1.summaryResults
        = st.summaryResults ∧
      (handleSummarize vU vY respond st).1.summaryHistory
        = st.summaryHistory ∧
      (handleSummarize vU vY respond st).1.currentStep = "input") := by
  unfold handleSummarize
  by_cases hv : hasValidInput vU vY st = false
  · right
    simp [hv, SummOutcome.isError, h]
  · rw [if_neg hv]
    rcases hb : buildSummRequest st with _ | req
    · right
      simp [hb, SummOutcome.isError, setLoading, setCurrentStep]
    · rcases hr : respond req with _ | result
      · right
        simp [hb, hr, SummOutcome.isError, setLoading, setCurrentStep]
      · left
        refine ⟨req, result, ?_, ?_, ?_⟩ <;>
          simp [hb, hr, setLoading, setCurrentStep, setSummaryResults]

/-- Witness for `summarize_all_or_nothing` on the initial state (whose
empty input is rejected, the error side of the disjunction). -/
theorem summarize_all_or_nothing_witness :
    (∃ req r,
        (handleSummarize (fun _ => true) (fun _ => true) (fun _ => none)
            initialState).2 = .success req r ∧
        (handleSummarize (fun _ => true) (fun _ => true) (fun _ => none)
            initialState).1.summaryResults = some r ∧
        (handleSummarize (fun _ => true) (fun _ => true) (fun _ => none)
            initialState).1.currentStep = "results") ∨
    (((handleSummarize (fun _ => true) (fun _ => true) (fun _ => none)
          initialState).2).isError = true ∧
      (handleSummarize (fun _ => true) (fun _ => true) (fun _ => none)
          initialState).1.summaryResults = initialState.summaryResults ∧
      (handleSummarize (fun _ => true) (fun _ => true) (fun _ => none)
          initialState).1.summaryHistory = initialState.summaryHistory ∧
      (handleSummarize (fun _ => true) (fun _ => true) (fun _ => none)
          initialState).1.currentStep = "input") :=
  summarize_all_or_nothing (fun _ => true) (fun _ => true) (fun _ => none)
    initialState rfl

/-- C7: every summarization, Q&A and export request carries a finite
timeout — 600000 ms from the client default, 900000 ms for document
summarization — and on expiry the delivered `ECONNABORTED` error is
turned into an explicit timeout message and rejected through to the
caller. -/
theorem request_timeouts (m : ApiMethod) (e : AxiosError)
    (hm : m ≠ .summarizeDocument)
    (he : e.responseStatus = none) (hr : e.hasRequest = true)
    (hc : e.code = "ECONNABORTED") :
    0 < requestTimeoutMs m ∧
    requestTimeoutMs m = 600000 ∧
    requestTimeoutMs .summarizeDocument = 900000 ∧
    responseInterceptor e =
      ("Request timeout. The operation is taking longer than expected. Please try again.",
        true) ∧
    responseInterceptor timeoutExpiryError =
      ("Request timeout. The operation is taking longer than expected. Please try again.",
        true) := by
  refine ⟨?_, ?_, rfl, ?_, rfl⟩
  · cases m <;> simp [requestTimeoutMs]
  · cases m <;> simp_all [requestTimeoutMs]
  · simp [responseInterceptor, interceptorMessage, he, hr, hc]

/-- Witness for `request_timeouts` at the text-summarization method and
the timeout-expiry error. -/
theorem request_timeouts_witness :
    requestTimeoutMs .summarizeText = 600000 ∧
    responseInterceptor timeoutExpiryError =
      ("Request timeout. The operation is taking longer than expected. Please try again.",
        true) :=
  ⟨(request_timeouts .summarizeText timeoutExpiryError (by decide) rfl rfl
      rfl).2.1,
   (request_timeouts .summarizeText timeoutExpiryError (by decide) rfl rfl
      rfl).2.2.2.2⟩

/-- Dropping each chunk's leading overlap and concatenating recovers
the text from position `o` on, for every chunk list `chunkText`
produces. -/
theorem chunk_flatten_drop (pick : List Char → Nat) (b o : Nat)
    (t : List Char) :
    ((chunkText pick b o t).map (List.drop o)).flatten = t.drop o := by
  have H : ∀ (n : Nat) (t : List Char), t.length ≤ n →
      ((chunkText pick b o t).map (List.drop o)).flatten = t.drop o := by
    intro n
    induction n with
    | zero =>
      intro t ht
      rw [chunkText]
      rw [if_pos (Or.inl (le_trans ht (Nat.zero_le b)))]
      simp
    | succ n ih =>
      intro t ht
      rw [chunkText]
      split_ifs with hcond
      · simp
      · push_neg at hcond
        obtain ⟨hb, ho⟩ := hcond
        have hok : o + 1 ≤ chunkLen pick b o t := le_max_left _ _
        have hlen : (t.drop (chunkLen pick b o t - o)).length ≤ n := by
          simp only [List.length_drop]
          omega
        rw [List.map_cons, List.flatten_cons, ih _ hlen]
        rw [List.drop_drop, List.drop_take]
        rw [Nat.add_comm (chunkLen pick b o t - o) o]
        rw [← List.drop_drop]
        exact List.take_append_drop _ _
  exact H t.length t le_rfl

/-- C8: spec-modelled chunker — for every text, budget, overlap and
boundary selector, removing the overlaps and concatenating the chunks
reconstructs the text exactly, and the chunk list is a deterministic
function of the (text, budget, overlap, selector) tuple. -/
theorem chunker_reconstructs (pick : List Char → Nat) (b o : Nat)
    (t : List Char) :
    dropOverlapsConcat o (chunkText pick b o t) = t ∧
    (∀ pick2 b2 o2 t2, pick = pick2 → b = b2 → o = o2 → t = t2 →
      chunkText pick b o t = chunkText pick2 b2 o2 t2) := by
  constructor
  · rw [chunkText]
    split_ifs with hcond
    · simp [dropOverlapsConcat]
    · push_neg at hcond
      obtain ⟨hb, ho⟩ := hcond
      have hok : o + 1 ≤ chunkLen pick b o t := le_max_left _ _
      simp only [dropOverlapsConcat]
      rw [chunk_flatten_drop]
      rw [List.drop_drop]
      have hko : chunkLen pick b o t - o + o = chunkLen pick b o t := by
        omega
      rw [hko]
      exact List.take_append_drop _ _
  · intro pick2 b2 o2 t2 h1 h2 h3 h4
    subst h1; subst h2; subst h3; subst h4
    rfl

/-- Witness for `chunker_reconstructs` on a 7-character text with
budget 4, overlap 2 and a hard-cut selector. -/
theorem chunker_reconstructs_witness :
    dropOverlapsConcat 2
        (chunkText (fun _ => 4) 4 2 "abcdefg".toList)
      = "abcdefg".toList ∧
    chunkText (fun _ => 4) 4 2 "abcdefg".toList
      = chunkText (fun _ => 4) 4 2 "abcdefg".toList :=
  ⟨(chunker_reconstructs (fun _ => 4) 4 2 "abcdefg".toList).1,
   (chunker_reconstructs (fun _ => 4) 4 2 "abcdefg".toList).2
     (fun _ => 4) 4 2 "abcdefg".toList rfl rfl rfl rfl⟩

end SummarizerPro
